import Mathlib

/-
  Verification development for the wayside badge firmware pairing module
  (firmware/main/src/pairing.c, firmware/main/lib/pairing.h).

  The C module is shallowly embedded: byte buffers become List Nat (each
  element a byte value < 256 on honest inputs), C strings become the list
  of their bytes up to the terminating NUL, uint32 arithmetic is Nat with
  explicit reduction modulo 2^32, int8 RSSI values are Int, and the
  pairing context struct becomes a Lean structure.  NULL pointers for the
  owned bitmask buffers are represented by the empty list (the module
  never allocates zero-length buffers).  malloc is modelled as always
  succeeding and esp_now_send as always succeeding; packets handed to
  esp_now_send are collected in an output list.
-/

namespace Wayside

/-- Reduce a value to uint32 range, as storing into a uint32 field does. -/
def u32 (n : Nat) : Nat := n % 4294967296

/-- Wrapping uint32 subtraction a - b, the arithmetic used for elapsed-time
checks such as now - last_action_time. -/
def sub32 (a b : Nat) : Nat := (u32 a + 4294967296 - u32 b) % 4294967296

/-- Read one byte of a buffer (reads past the end give 0, which never happens
on the guarded paths of the C code). -/
def rd8 (l : List Nat) (i : Nat) : Nat := l.getD i 0 % 256

/-- Read a little-endian uint16 at byte offset i, as the packed struct read
of the bitmask_len field does on the little-endian target. -/
def rd16 (l : List Nat) (i : Nat) : Nat := rd8 l i + 256 * rd8 l (i + 1)

/-- Read a little-endian uint32 at byte offset i (packed seq_num field). -/
def rd32 (l : List Nat) (i : Nat) : Nat :=
  rd8 l i + 256 * rd8 l (i + 1) + 65536 * rd8 l (i + 2) + 16777216 * rd8 l (i + 3)

/-- Little-endian bytes of a uint16 value. -/
def le16 (n : Nat) : List Nat := [n % 256, n / 256 % 256]

/-- Little-endian bytes of a uint32 value. -/
def le32 (n : Nat) : List Nat :=
  [n % 256, n / 256 % 256, n / 65536 % 256, n / 16777216 % 256]

/-- The byte stored for an int8 value (two's complement). -/
def i8byte (r : Int) : Nat := (r % 256).toNat

/-- memcpy n bytes out of a buffer; reading past the end of the modelled list
gives 0 (the C code only does this with n equal to the buffer length). -/
def readBytes (l : List Nat) (n : Nat) : List Nat :=
  (l ++ List.replicate n 0).take n

/-- A six-byte link-layer address as read by memcpy(dst, src, 6): the six
bytes of the source buffer. -/
def mac6 (l : List Nat) : List Nat :=
  [l.getD 0 0, l.getD 1 0, l.getD 2 0, l.getD 3 0, l.getD 4 0, l.getD 5 0]

/-- memcmp(a, b, 6) == 0 on six-byte addresses. -/
def mac6_eq (a b : List Nat) : Bool := mac6 a == mac6 b

/-- memcmp(a, b, n) > 0 on equal-length byte arrays: the first differing
byte is larger in a. -/
def lex_gt : List Nat → List Nat → Bool
  | x :: xs, y :: ys => if x = y then lex_gt xs ys else decide (x > y)
  | _, _ => false

/-- Resulting C-string content of strncpy(dst, src, n - 1) followed by
forcing dst[n-1] = 0: at most n - 1 bytes of src up to its NUL. -/
def strncpyM (src : List Nat) (n : Nat) : List Nat :=
  (src.takeWhile (fun b => b ≠ 0)).take (n - 1)

/-- strlen of a modelled C string (bytes up to the first NUL). -/
def cstrlen (s : List Nat) : Nat := (s.takeWhile (fun b => b ≠ 0)).length

/-- Bytes written by memcpy(dst, s, strlen(s) + 1): the string and its NUL. -/
def cstrBytes (s : List Nat) : List Nat := s.takeWhile (fun b => b ≠ 0) ++ [0]

/-- Write the bytes m into buffer l starting at offset off (memcpy into the
middle of a larger buffer). -/
def splice (l : List Nat) (off : Nat) (m : List Nat) : List Nat :=
  l.take off ++ m ++ l.drop (off + m.length)

/-- Population count of a byte, the value __builtin_popcount produces for
arguments promoted from uint8. -/
def popcount8 (x : Nat) : Nat :=
  x % 2 + x / 2 % 2 + x / 4 % 2 + x / 8 % 2 +
  x / 16 % 2 + x / 32 % 2 + x / 64 % 2 + x / 128 % 2

/-! Constants from pairing.h, espnow.h and pairing.c. -/

def PAIRING_KEY_MAX_LEN : Nat := 512
def PAIRING_BITMASK_MAX_LEN : Nat := 256
def KEY_EXCHANGE_URL_MAX_LEN : Nat := 512
def PAIRING_PROTOCOL_ID : Nat := 0x42
def PAIRING_REBROADCAST_MS : Nat := 500
def PAIRING_TIMEOUT_MS : Nat := 5000
def PAIRING_HEARTBEAT_MS : Nat := 1000
def PAIRING_HEARTBEAT_MISS_MAX : Nat := 5
def RSSI_ZONE_MEDIUM : Int := -70
def PAIRING_MIN_RSSI_PROPOSING : Int := RSSI_ZONE_MEDIUM
def PAIRING_DEFAULT_SIMILARITY_THRESHOLD : Nat := 50
def HEADER_SIZE : Nat := 26
def ESP_NOW_ETH_ALEN : Nat := 6

def MSG_HELLO : Nat := 1
def MSG_PROPOSAL : Nat := 2
def MSG_ACCEPT : Nat := 3
def MSG_REJECT : Nat := 4
def MSG_HEARTBEAT : Nat := 5
def MSG_KEY_EXCHANGE : Nat := 6
def MSG_RELAY_URL : Nat := 7

inductive BROADCAST_STATE where
  | SEARCHING
  | PROPOSING
  | PAIRED
deriving DecidableEq, Repr

open BROADCAST_STATE

/-- The byte the packed header stores for the state enum. -/
def stateByte : BROADCAST_STATE → Nat
  | SEARCHING => 0
  | PROPOSING => 1
  | PAIRED => 2

structure key_exchange_ctx_t where
  active : Bool
  key_sent : Bool
  key_confirmed : Bool
  notified_phone : Bool
  outgoing_url : List Nat
  incoming_url : List Nat
  has_outgoing_url : Bool
  outgoing_url_sent : Bool
  has_incoming_url : Bool
deriving DecidableEq, Repr

/-- memset(&kex, 0, sizeof(key_exchange_ctx_t)). -/
def kexZero : key_exchange_ctx_t :=
  ⟨false, false, false, false, [], [], false, false, false⟩

structure pairing_ctx_t where
  my_mac : List Nat
  partner_mac : List Nat
  current_state : BROADCAST_STATE
  last_action_time : Nat
  last_heartbeat_sent : Nat
  last_heartbeat_recv : Nat
  heartbeat_seq : Nat
  partner_seq : Nat
  missed_heartbeats : Int
  partner_rssi : Int
  proposal_rssi : Int
  bitmask : List Nat
  bitmask_len : Nat
  partner_bitmask : List Nat
  partner_bitmask_len : Nat
  my_public_key : List Nat
  partner_public_key : List Nat
  has_bitmask : Bool
  has_pubkey : Bool
  similarity_threshold : Nat
  kex : key_exchange_ctx_t
deriving DecidableEq, Repr

/-- calculate_bitmask_similarity from pairing.c: Dice-style overlap of two
byte buffers, 200 * popcount(A AND B) / (popcount A + popcount B), with the
AND restricted to the overlapping prefix, cast to uint8 at the end. -/
def calculate_bitmask_similarity (a : List Nat) (a_len : Nat)
    (b : List Nat) (b_len : Nat) : Nat :=
  if a = [] ∨ b = [] ∨ a_len = 0 ∨ b_len = 0 then 0
  else
    let min_len := if a_len < b_len then a_len else b_len
    let and_count := (Finset.range min_len).sum
      (fun i => popcount8 (Nat.land (rd8 a i) (rd8 b i)))
    let a_count := (Finset.range min_len).sum (fun i => popcount8 (rd8 a i)) +
      (Finset.Ico min_len a_len).sum (fun i => popcount8 (rd8 a i))
    let b_count := (Finset.range min_len).sum (fun i => popcount8 (rd8 b i)) +
      (Finset.Ico min_len b_len).sum (fun i => popcount8 (rd8 b i))
    let total := a_count + b_count
    if total = 0 then 0 else 200 * and_count / total % 256

/-- Modelled from the spec: the similarity formula as the spec states it,
floor(200 * popcount(A AND B) / (popcount A + popcount B)) with the AND taken
byte-by-byte over the overlapping range, and 0 for an empty side. -/
def dice_similarity (a b : List Nat) : Nat :=
  if a.length = 0 ∨ b.length = 0 then 0
  else
    200 * (((a.zip b).map (fun p => popcount8 (Nat.land p.1 p.2))).sum) /
      ((a.map popcount8).sum + (b.map popcount8).sum)

/-! The packet codec.  broadcast_header_t is __attribute__((packed)) and the
target is little-endian, so the wire layout is: protocol_id (1), msg_type (1),
sender_mac (6), partner_mac (6), uptime_ms (4, LE), state (1), last_rssi (1),
seq_num (4, LE), bitmask_len (2, LE); HEADER_SIZE = 26. -/

/-- Serialized broadcast_header_t with the given field values. -/
def mkHeader (protocol_id msg_type : Nat) (sender partner : List Nat)
    (uptime : Nat) (state : Nat) (last_rssi : Int) (seq : Nat)
    (bitmask_len : Nat) : List Nat :=
  [protocol_id % 256, msg_type % 256] ++ mac6 sender ++ mac6 partner ++
    le32 uptime ++ [state % 256, i8byte last_rssi] ++ le32 seq ++
    le16 bitmask_len

/-- build_packet_with_bitmask from pairing.c: header, then the context's
bitmask, then optionally a NUL-terminated copy of pubkey.  Returns none when
the total exceeds the caller's buffer capacity (the C function returns 0).
The C function zeroes the buffer before writing, writes header fields via
fill_packet_header (seq_num stays 0 from the memset), and advances the
payload cursor past the bitmask only when the bitmask pointer is non-NULL. -/
def build_packet_with_bitmask (ctx : pairing_ctx_t) (buf_size : Nat)
    (msg_type : Nat) (pubkey : Option (List Nat)) (now : Nat) :
    Option (List Nat) :=
  let pubkey_len := match pubkey with
    | some k => cstrlen k + 1
    | none => 0
  let total_size := HEADER_SIZE + ctx.bitmask_len + pubkey_len
  if total_size > buf_size then none
  else
    let hdr := mkHeader PAIRING_PROTOCOL_ID msg_type ctx.my_mac
      ctx.partner_mac (u32 now) (stateByte ctx.current_state)
      ctx.partner_rssi 0 ctx.bitmask_len
    let payload0 := List.replicate (ctx.bitmask_len + pubkey_len) 0
    let hasBm := ctx.bitmask_len > 0 ∧ ctx.bitmask ≠ []
    let payload1 := if hasBm then
        splice payload0 0 (readBytes ctx.bitmask ctx.bitmask_len)
      else payload0
    let off := if hasBm then ctx.bitmask_len else 0
    let payload2 := match pubkey with
      | some k => splice payload1 off (cstrBytes k)
      | none => payload1
    some (hdr ++ payload2)

/-- The views parse_incoming_packet hands back: the bitmask section (none for
a NULL out_bitmask), its length, and the raw trailing bytes (none for a NULL
out_pubkey). -/
structure parsed_packet where
  bitmask : Option (List Nat)
  bitmask_len : Nat
  pubkey : Option (List Nat)
deriving DecidableEq, Repr

/-- parse_incoming_packet from pairing.c: bounds-check the header and the
declared bitmask length, then expose views into the variable sections. -/
def parse_incoming_packet (data : List Nat) : Option parsed_packet :=
  if data.length < HEADER_SIZE then none
  else
    let bitmask_len := rd16 data 24
    if bitmask_len > PAIRING_BITMASK_MAX_LEN then none
    else if HEADER_SIZE + bitmask_len > data.length then none
    else
      let bm : Option (List Nat) :=
        if bitmask_len > 0 then some ((data.drop HEADER_SIZE).take bitmask_len)
        else none
      let remaining := data.length - HEADER_SIZE - bitmask_len
      let pk : Option (List Nat) :=
        if remaining > 0 then some (data.drop (HEADER_SIZE + bitmask_len))
        else none
      some ⟨bm, if bitmask_len > 0 then bitmask_len else 0, pk⟩

/-- A datagram handed to esp_now_send: destination address and raw bytes.
The all-FF destination is the espnow broadcast address. -/
structure sent_packet where
  dest : List Nat
  bytes : List Nat
deriving DecidableEq, Repr

def espnow_broadcast_mac : List Nat := [255, 255, 255, 255, 255, 255]

/-- pairing_is_ready: both identity fields configured. -/
def pairing_is_ready (ctx : pairing_ctx_t) : Bool :=
  ctx.has_bitmask && ctx.has_pubkey

/-- pairing_init: zeroed context, state SEARCHING, default threshold, the
device address read from the radio, last_action_time from the clock. -/
def pairing_init (mac : List Nat) (now : Nat) : pairing_ctx_t where
  my_mac := mac6 mac
  partner_mac := List.replicate 6 0
  current_state := SEARCHING
  last_action_time := u32 now
  last_heartbeat_sent := 0
  last_heartbeat_recv := 0
  heartbeat_seq := 0
  partner_seq := 0
  missed_heartbeats := 0
  partner_rssi := 0
  proposal_rssi := 0
  bitmask := []
  bitmask_len := 0
  partner_bitmask := []
  partner_bitmask_len := 0
  my_public_key := []
  partner_public_key := []
  has_bitmask := false
  has_pubkey := false
  similarity_threshold := PAIRING_DEFAULT_SIMILARITY_THRESHOLD
  kex := kexZero

/-- pairing_reset: back to SEARCHING with the partner address, partner key,
partner bitmask and key-exchange subcontext all cleared. -/
def pairing_reset (ctx : pairing_ctx_t) (now : Nat) : pairing_ctx_t :=
  { ctx with
    current_state := SEARCHING
    partner_mac := List.replicate 6 0
    partner_public_key := []
    partner_bitmask := []
    partner_bitmask_len := 0
    kex := kexZero
    last_action_time := u32 now }

/-- pairing_set_pubkey: store the key (strncpy-truncated), mark it present,
and reset the state machine once both identity fields are configured. -/
def pairing_set_pubkey (ctx : pairing_ctx_t) (pub_key : List Nat)
    (now : Nat) : pairing_ctx_t :=
  let c := { ctx with
    my_public_key := strncpyM pub_key PAIRING_KEY_MAX_LEN
    has_pubkey := true }
  if pairing_is_ready c then pairing_reset c now else c

/-- pairing_set_bitmask: reject NULL/empty/oversized input, otherwise replace
the owned bitmask buffer, mark it present, and reset once both identity
fields are configured. -/
def pairing_set_bitmask (ctx : pairing_ctx_t) (data : List Nat) (len : Nat)
    (now : Nat) : pairing_ctx_t :=
  if data = [] ∨ len = 0 ∨ len > PAIRING_BITMASK_MAX_LEN then ctx
  else
    let c := { ctx with
      bitmask := readBytes data len
      bitmask_len := len
      has_bitmask := true }
    if pairing_is_ready c then pairing_reset c now else c

/-- pairing_set_similarity_threshold, clamped to 100. -/
def pairing_set_similarity_threshold (ctx : pairing_ctx_t) (threshold : Nat) :
    pairing_ctx_t :=
  { ctx with similarity_threshold := if threshold > 100 then 100 else threshold }

/-- pairing_set_relay_url: only stored while PAIRED with an active key
exchange; otherwise the call is ignored. -/
def pairing_set_relay_url (ctx : pairing_ctx_t) (url : List Nat) :
    pairing_ctx_t :=
  if ctx.current_state ≠ PAIRED ∨ ctx.kex.active = false then ctx
  else
    { ctx with kex := { ctx.kex with
        outgoing_url := strncpyM url KEY_EXCHANGE_URL_MAX_LEN
        has_outgoing_url := true
        outgoing_url_sent := false } }

/-- send_reject: header-only REJECT datagram to the given address. -/
def send_reject (ctx : pairing_ctx_t) (target_mac : List Nat) (now : Nat) :
    List sent_packet :=
  [⟨mac6 target_mac,
    mkHeader PAIRING_PROTOCOL_ID MSG_REJECT ctx.my_mac ctx.partner_mac
      (u32 now) (stateByte ctx.current_state) ctx.partner_rssi 0 0⟩]

/-- send_hello: broadcast a HELLO carrying the own bitmask and no key. -/
def send_hello (ctx : pairing_ctx_t) (now : Nat) : List sent_packet :=
  match build_packet_with_bitmask ctx (HEADER_SIZE + PAIRING_BITMASK_MAX_LEN)
      MSG_HELLO none now with
  | some buf => [⟨espnow_broadcast_mac, buf⟩]
  | none => []

/-- send_heartbeat: header-only HEARTBEAT to the partner carrying the current
sequence number, which is then post-incremented in the context. -/
def send_heartbeat (ctx : pairing_ctx_t) (now : Nat) :
    pairing_ctx_t × List sent_packet :=
  ({ ctx with heartbeat_seq := u32 (ctx.heartbeat_seq + 1) },
   [⟨mac6 ctx.partner_mac,
     mkHeader PAIRING_PROTOCOL_ID MSG_HEARTBEAT ctx.my_mac ctx.partner_mac
       (u32 now) (stateByte ctx.current_state) ctx.partner_rssi
       ctx.heartbeat_seq 0⟩])

/-- propose_pairing: track the target as partner, enter PROPOSING, stamp
last_action_time, and unicast a PROPOSAL carrying bitmask and own key. -/
def propose_pairing (ctx : pairing_ctx_t) (target_mac : List Nat)
    (now : Nat) : pairing_ctx_t × List sent_packet :=
  let c := { ctx with
    partner_mac := mac6 target_mac
    current_state := PROPOSING
    last_action_time := u32 now }
  match build_packet_with_bitmask c
      (HEADER_SIZE + PAIRING_BITMASK_MAX_LEN + PAIRING_KEY_MAX_LEN)
      MSG_PROPOSAL (some c.my_public_key) now with
  | some buf => (c, [⟨mac6 target_mac, buf⟩])
  | none => (c, [])

/-- accept_pairing: track the target as partner, enter PAIRED, reset the
heartbeat clocks and sequence counter, arm the key exchange, and unicast an
ACCEPT carrying bitmask and own key. -/
def accept_pairing (ctx : pairing_ctx_t) (target_mac : List Nat)
    (now : Nat) : pairing_ctx_t × List sent_packet :=
  let c := { ctx with
    partner_mac := mac6 target_mac
    current_state := PAIRED
    last_heartbeat_sent := u32 now
    last_heartbeat_recv := u32 now
    heartbeat_seq := 0
    kex := { kexZero with active := true } }
  match build_packet_with_bitmask c
      (HEADER_SIZE + PAIRING_BITMASK_MAX_LEN + PAIRING_KEY_MAX_LEN)
      MSG_ACCEPT (some c.my_public_key) now with
  | some buf => (c, [⟨mac6 target_mac, buf⟩])
  | none => (c, [])

/-- handle_heartbeat: refresh the liveness clock and partner telemetry. -/
def handle_heartbeat (ctx : pairing_ctx_t) (data : List Nat) (rssi : Int)
    (now : Nat) : pairing_ctx_t :=
  { ctx with
    last_heartbeat_recv := u32 now
    missed_heartbeats := 0
    partner_seq := rd32 data 20
    partner_rssi := rssi }

/-- send_key_exchange: unicast the partner's own key back as confirmation. -/
def send_key_exchange (ctx : pairing_ctx_t) (now : Nat) : List sent_packet :=
  match build_packet_with_bitmask ctx (HEADER_SIZE + PAIRING_KEY_MAX_LEN)
      MSG_KEY_EXCHANGE (some ctx.partner_public_key) now with
  | some buf => [⟨mac6 ctx.partner_mac, buf⟩]
  | none => []

/-- send_relay_url: unicast the queued outgoing relay payload. -/
def send_relay_url (ctx : pairing_ctx_t) (now : Nat) : List sent_packet :=
  match build_packet_with_bitmask ctx (HEADER_SIZE + KEY_EXCHANGE_URL_MAX_LEN)
      MSG_RELAY_URL (some ctx.kex.outgoing_url) now with
  | some buf => [⟨mac6 ctx.partner_mac, buf⟩]
  | none => []

/-- The SEARCHING arm of the receive switch in pairing_handle_recv.  The
NULL checks of the C code become checks against none; after a passed check
the view is read with getD (the C code dereferences the pointer there). -/
def handle_recv_searching (ctx : pairing_ctx_t) (mac_addr : List Nat)
    (msg_type : Nat) (p : parsed_packet) (rssi : Int) (now : Nat) :
    pairing_ctx_t × List sent_packet :=
  if msg_type = MSG_HELLO then
    if p.bitmask = none ∨ p.bitmask_len = 0 then (ctx, [])
    else
      let similarity := calculate_bitmask_similarity ctx.bitmask
        ctx.bitmask_len (p.bitmask.getD []) p.bitmask_len
      if similarity < ctx.similarity_threshold then (ctx, [])
      else
        propose_pairing
          { ctx with
            partner_bitmask := readBytes (p.bitmask.getD []) p.bitmask_len
            partner_bitmask_len := p.bitmask_len
            proposal_rssi := rssi }
          mac_addr now
  else if msg_type = MSG_PROPOSAL then
    if p.pubkey = none ∨ p.bitmask = none then (ctx, [])
    else
      accept_pairing
        { ctx with
          partner_public_key := strncpyM (p.pubkey.getD []) PAIRING_KEY_MAX_LEN
          partner_bitmask := readBytes (p.bitmask.getD []) p.bitmask_len
          partner_bitmask_len := p.bitmask_len }
        mac_addr now
  else (ctx, [])

/-- The PROPOSING arm of the receive switch in pairing_handle_recv:
responses from the tracked partner, and the deterministic tie-break on a
simultaneous PROPOSAL from a third party. -/
def handle_recv_proposing (ctx : pairing_ctx_t) (mac_addr : List Nat)
    (data : List Nat) (msg_type : Nat) (p : parsed_packet) (rssi : Int)
    (now : Nat) : pairing_ctx_t × List sent_packet :=
  if mac6_eq ctx.partner_mac mac_addr then
    if msg_type = MSG_ACCEPT then
      if p.pubkey = none then (ctx, [])
      else if rssi < PAIRING_MIN_RSSI_PROPOSING then (ctx, [])
      else
        let c1 := { ctx with
          partner_public_key := strncpyM (p.pubkey.getD []) PAIRING_KEY_MAX_LEN }
        let c2 := if p.bitmask ≠ none ∧ p.bitmask_len > 0 then
            { c1 with
              partner_bitmask := readBytes (p.bitmask.getD []) p.bitmask_len
              partner_bitmask_len := p.bitmask_len }
          else c1
        ({ c2 with
           current_state := PAIRED
           last_heartbeat_sent := u32 now
           last_heartbeat_recv := u32 now
           heartbeat_seq := 0
           partner_seq := 0
           missed_heartbeats := 0
           partner_rssi := rssi
           kex := { kexZero with active := true } }, [])
    else if msg_type = MSG_REJECT then
      ({ ctx with current_state := SEARCHING }, [])
    else (ctx, [])
  else if msg_type = MSG_PROPOSAL then
    if rssi < PAIRING_MIN_RSSI_PROPOSING then (ctx, send_reject ctx mac_addr now)
    else if p.pubkey = none ∨ p.bitmask = none then
      (ctx, send_reject ctx mac_addr now)
    else if ¬ (rssi > ctx.proposal_rssi ∨
        (rssi = ctx.proposal_rssi ∧
          lex_gt (mac6 mac_addr) (mac6 ctx.partner_mac) = true)) then
      (ctx, send_reject ctx mac_addr now)
    else
      accept_pairing
        { ctx with
          partner_public_key := strncpyM (p.pubkey.getD []) PAIRING_KEY_MAX_LEN
          partner_bitmask := readBytes (p.bitmask.getD []) p.bitmask_len
          partner_bitmask_len := p.bitmask_len
          proposal_rssi := rssi }
        mac_addr now
  else (ctx, [])

/-- The PAIRED arm of the receive switch in pairing_handle_recv. -/
def handle_recv_paired (ctx : pairing_ctx_t) (mac_addr : List Nat)
    (data : List Nat) (msg_type : Nat) (p : parsed_packet) (rssi : Int)
    (now : Nat) : pairing_ctx_t × List sent_packet :=
  if mac6_eq ctx.partner_mac mac_addr then
    if msg_type = MSG_HEARTBEAT then (handle_heartbeat ctx data rssi now, [])
    else if msg_type = MSG_KEY_EXCHANGE then
      ({ ctx with kex := { ctx.kex with key_confirmed := true } }, [])
    else if msg_type = MSG_RELAY_URL then
      if p.pubkey ≠ none then
        ({ ctx with kex := { ctx.kex with
            incoming_url := strncpyM (p.pubkey.getD []) KEY_EXCHANGE_URL_MAX_LEN
            has_incoming_url := true } }, [])
      else (ctx, [])
    else (ctx, [])
  else if msg_type = MSG_PROPOSAL then (ctx, send_reject ctx mac_addr now)
  else (ctx, [])

/-- pairing_handle_recv: readiness gate, length and protocol-tag filtering,
packet parsing, then the per-state switch. -/
def pairing_handle_recv (ctx : pairing_ctx_t) (mac_addr : List Nat)
    (data : List Nat) (rssi : Int) (now : Nat) :
    pairing_ctx_t × List sent_packet :=
  if ¬ pairing_is_ready ctx then (ctx, [])
  else if data.length < HEADER_SIZE then (ctx, [])
  else if rd8 data 0 ≠ PAIRING_PROTOCOL_ID then (ctx, [])
  else
    match parse_incoming_packet data with
    | none => (ctx, [])
    | some p =>
      let msg_type := rd8 data 1
      match ctx.current_state with
      | SEARCHING => handle_recv_searching ctx mac_addr msg_type p rssi now
      | PROPOSING => handle_recv_proposing ctx mac_addr data msg_type p rssi now
      | PAIRED => handle_recv_paired ctx mac_addr data msg_type p rssi now

/-- The key-exchange portion of the PAIRED tick: send the key confirmation
once, notify the phone once the partner confirmed, send a queued relay
payload once, and flush a received relay payload to the phone. -/
def tick_kex (ctx : pairing_ctx_t) (sent : List sent_packet) (now : Nat) :
    pairing_ctx_t × List sent_packet :=
  if ctx.kex.active = false then (ctx, sent)
  else
    let s1 := if ctx.kex.key_sent = false then sent ++ send_key_exchange ctx now
      else sent
    let c1 := if ctx.kex.key_sent = false then
        { ctx with kex := { ctx.kex with key_sent := true } }
      else ctx
    let c2 := if c1.kex.key_confirmed = true ∧ c1.kex.notified_phone = false then
        { c1 with kex := { c1.kex with notified_phone := true } }
      else c1
    let s2 := if c2.kex.has_outgoing_url = true ∧ c2.kex.outgoing_url_sent = false
      then s1 ++ send_relay_url c2 now else s1
    let c3 := if c2.kex.has_outgoing_url = true ∧ c2.kex.outgoing_url_sent = false
      then { c2 with kex := { c2.kex with outgoing_url_sent := true } } else c2
    let c4 := if c3.kex.has_incoming_url = true then
        { c3 with kex := { c3.kex with has_incoming_url := false } }
      else c3
    (c4, s2)

/-- pairing_tick: the periodic maintenance entry point. -/
def pairing_tick (ctx : pairing_ctx_t) (now : Nat) :
    pairing_ctx_t × List sent_packet :=
  if ¬ pairing_is_ready ctx then (ctx, [])
  else
    match ctx.current_state with
    | SEARCHING =>
      if sub32 now ctx.last_action_time > PAIRING_REBROADCAST_MS then
        ({ ctx with last_action_time := u32 now }, send_hello ctx now)
      else (ctx, [])
    | PROPOSING =>
      if sub32 now ctx.last_action_time > PAIRING_TIMEOUT_MS then
        ({ ctx with current_state := SEARCHING, last_action_time := u32 now }, [])
      else (ctx, [])
    | PAIRED =>
      let r1 := if sub32 now ctx.last_heartbeat_sent > PAIRING_HEARTBEAT_MS then
          let hb := send_heartbeat ctx now
          ({ hb.1 with last_heartbeat_sent := u32 now }, hb.2)
        else (ctx, [])
      if sub32 now r1.1.last_heartbeat_recv >
          PAIRING_HEARTBEAT_MS * PAIRING_HEARTBEAT_MISS_MAX then
        (pairing_reset r1.1 now, r1.2)
      else tick_kex r1.1 r1.2 now

/-- The context states reachable from a freshly initialized context through
the public entry points of the module. -/
inductive Reachable : pairing_ctx_t → Prop where
  | init (mac : List Nat) (now : Nat) : Reachable (pairing_init mac now)
  | recv (c : pairing_ctx_t) (mac_addr data : List Nat) (rssi : Int)
      (now : Nat) : Reachable c →
      Reachable (pairing_handle_recv c mac_addr data rssi now).1
  | tick (c : pairing_ctx_t) (now : Nat) : Reachable c →
      Reachable (pairing_tick c now).1
  | reset (c : pairing_ctx_t) (now : Nat) : Reachable c →
      Reachable (pairing_reset c now)
  | set_pubkey (c : pairing_ctx_t) (k : List Nat) (now : Nat) : Reachable c →
      Reachable (pairing_set_pubkey c k now)
  | set_bitmask (c : pairing_ctx_t) (d : List Nat) (len now : Nat) :
      Reachable c → Reachable (pairing_set_bitmask c d len now)
  | set_relay_url (c : pairing_ctx_t) (url : List Nat) : Reachable c →
      Reachable (pairing_set_relay_url c url)
  | set_threshold (c : pairing_ctx_t) (t : Nat) : Reachable c →
      Reachable (pairing_set_similarity_threshold c t)

/-- The inductive invariant of the state machine: the partner public key is
written only on the transitions into PAIRED, and every entry into PAIRED
arms the key exchange. -/
def CtxInv (c : pairing_ctx_t) : Prop :=
  (c.current_state = SEARCHING → c.partner_public_key = []) ∧
  (c.current_state = PROPOSING → c.partner_public_key = []) ∧
  (c.current_state = PAIRED → c.kex.active = true)

/-! Concrete contexts and datagrams used to evaluate the theorems on real
inputs.  cexMac is this device, cexPartner the tracked partner, cexOther a
third device. -/

def cexMac : List Nat := [1, 2, 3, 4, 5, 6]
def cexPartner : List Nat := [7, 7, 7, 7, 7, 7]
def cexOther : List Nat := [9, 9, 9, 9, 9, 9]

/-- A ready context in PROPOSING that recorded a weak proposal_rssi. -/
def cexProposing : pairing_ctx_t where
  my_mac := cexMac
  partner_mac := cexPartner
  current_state := PROPOSING
  last_action_time := 0
  last_heartbeat_sent := 0
  last_heartbeat_recv := 0
  heartbeat_seq := 0
  partner_seq := 0
  missed_heartbeats := 0
  partner_rssi := 0
  proposal_rssi := -90
  bitmask := [255]
  bitmask_len := 1
  partner_bitmask := [255]
  partner_bitmask_len := 1
  my_public_key := [65]
  partner_public_key := []
  has_bitmask := true
  has_pubkey := true
  similarity_threshold := 50
  kex := kexZero

/-- A ready context in PAIRED with an armed key exchange. -/
def cexPaired : pairing_ctx_t :=
  { cexProposing with
    current_state := PAIRED
    partner_public_key := [66]
    kex := { kexZero with active := true } }

/-- A ready context in PAIRED whose key exchange already ran dry, used for
tick evaluations that should stop before the key-exchange block. -/
def cexPairedIdle : pairing_ctx_t :=
  { cexPaired with kex := kexZero }

/-- A PROPOSAL datagram from cexOther: header with bitmask_len 1, then the
bitmask byte 255, then the NUL-terminated key byte 66. -/
def cexProposalPkt : List Nat :=
  [66, 2] ++ cexOther ++ [0, 0, 0, 0, 0, 0] ++ [0, 0, 0, 0] ++ [0, 0] ++
    [0, 0, 0, 0] ++ [1, 0] ++ [255] ++ [66, 0]

/-- A HELLO datagram from cexOther carrying the bitmask byte 255. -/
def cexHelloPkt : List Nat :=
  [66, 1] ++ cexOther ++ [0, 0, 0, 0, 0, 0] ++ [0, 0, 0, 0] ++ [0, 0] ++
    [0, 0, 0, 0] ++ [1, 0] ++ [255]

/-- A header-only REJECT datagram from cexOther. -/
def cexRejectPkt : List Nat :=
  [66, 4] ++ cexOther ++ [0, 0, 0, 0, 0, 0] ++ [0, 0, 0, 0] ++ [0, 0] ++
    [0, 0, 0, 0] ++ [0, 0]

/-- The reachable trace behind the C3 counterexample: configure both
identity fields, propose to cexOther after its HELLO, then get rejected. -/
def cexTrace0 : pairing_ctx_t := pairing_init cexMac 0

def cexTrace1 : pairing_ctx_t := pairing_set_pubkey cexTrace0 [65] 0

def cexTrace2 : pairing_ctx_t := pairing_set_bitmask cexTrace1 [255] 1 0

def cexTrace3 : pairing_ctx_t :=
  (pairing_handle_recv cexTrace2 cexOther cexHelloPkt (-40) 10).1

def cexTrace4 : pairing_ctx_t :=
  (pairing_handle_recv cexTrace3 cexOther cexRejectPkt (-40) 20).1

/-- Wire size of the optional trailing string of build_packet_with_bitmask:
strlen plus the NUL for a present string, nothing otherwise. -/
def pubkeyWireLen : Option (List Nat) → Nat
  | some k => k.length + 1
  | none => 0

/-- The trailing bytes build_packet_with_bitmask appends for an optional
NUL-free string. -/
def pubkeyTail : Option (List Nat) → List Nat
  | some k => k ++ [0]
  | none => []

/-! Auxiliary lemmas about popcount8 and the similarity sums. -/

theorem bit_land_le (x y k : Nat) : Nat.land x y / 2 ^ k % 2 ≤ x / 2 ^ k % 2 := by
  have h := Nat.testBit_land x y k
  simp only [Nat.testBit_to_div_mod] at h
  rcases Nat.mod_two_eq_zero_or_one (Nat.land x y / 2 ^ k) with h1 | h1 <;>
    rcases Nat.mod_two_eq_zero_or_one (x / 2 ^ k) with h2 | h2 <;>
      simp_all [HAnd.hAnd, AndOp.and]

theorem popcount8_land_le (x y : Nat) : popcount8 (Nat.land x y) ≤ popcount8 x := by
  have h0 := bit_land_le x y 0
  have h1 := bit_land_le x y 1
  have h2 := bit_land_le x y 2
  have h3 := bit_land_le x y 3
  have h4 := bit_land_le x y 4
  have h5 := bit_land_le x y 5
  have h6 := bit_land_le x y 6
  have h7 := bit_land_le x y 7
  norm_num at h0 h1 h2 h3 h4 h5 h6 h7
  unfold popcount8
  omega

theorem rd8_eq_getD (a : List Nat) (i : Nat) (h : ∀ x ∈ a, x < 256) :
    rd8 a i = a.getD i 0 := by
  unfold rd8
  by_cases hi : i < a.length
  · have hm : a.getD i 0 ∈ a := by
      rw [List.getD_eq_getElem a 0 hi]
      exact a.getElem_mem hi
    exact Nat.mod_eq_of_lt (h _ hm)
  · rw [List.getD_eq_default a 0 (Nat.le_of_not_lt hi)]

theorem sum_range_getD (f : Nat → Nat) (l : List Nat) :
    (Finset.range l.length).sum (fun i => f (l.getD i 0)) = (l.map f).sum := by
  induction l with
  | nil => simp
  | cons x xs ih =>
    rw [List.length_cons, Finset.sum_range_succ']
    simp only [List.getD_cons_succ, List.getD_cons_zero, List.map_cons,
      List.sum_cons, ih]
    omega

theorem sum_range_getD2 (g : Nat → Nat → Nat) (a : List Nat) :
    ∀ b : List Nat,
    (Finset.range (min a.length b.length)).sum
      (fun i => g (a.getD i 0) (b.getD i 0)) =
    ((a.zip b).map (fun p => g p.1 p.2)).sum := by
  induction a with
  | nil => intro b; simp
  | cons x xs ih =>
    intro b
    cases b with
    | nil => simp
    | cons y ys =>
      rw [List.length_cons, List.length_cons, Nat.succ_min_succ,
        Finset.sum_range_succ']
      simp only [List.getD_cons_succ, List.getD_cons_zero, List.zip_cons_cons,
        List.map_cons, List.sum_cons, ih ys]
      omega

theorem zip_land_sum_le_left (x : List Nat) : ∀ y : List Nat,
    ((x.zip y).map (fun p => popcount8 (Nat.land p.1 p.2))).sum ≤
      (x.map popcount8).sum := by
  induction x with
  | nil => intro y; simp
  | cons c cs ih =>
    intro y
    cases y with
    | nil => simp
    | cons d ds =>
      simp only [List.zip_cons_cons, List.map_cons, List.sum_cons]
      have h1 := ih ds
      have h2 := popcount8_land_le c d
      omega

theorem zip_land_sum_le_right (x : List Nat) : ∀ y : List Nat,
    ((x.zip y).map (fun p => popcount8 (Nat.land p.1 p.2))).sum ≤
      (y.map popcount8).sum := by
  induction x with
  | nil => intro y; simp
  | cons c cs ih =>
    intro y
    cases y with
    | nil => simp
    | cons d ds =>
      simp only [List.zip_cons_cons, List.map_cons, List.sum_cons]
      have h1 := ih ds
      have e : Nat.land c d = Nat.land d c := Nat.land_comm c d
      have h2 : popcount8 (Nat.land c d) ≤ popcount8 d := by
        rw [e]
        exact popcount8_land_le d c
      omega

/-- Claim C2: calculate_bitmask_similarity computes the Dice-style formula
floor(200 * popcount(A AND B) / (popcount A + popcount B)), with the AND
taken byte-by-byte over the overlapping byte range, trailing bytes of the
longer buffer counted only in the denominator, and result 0 for an empty or
all-zero pair of buffers (the division by zero of the spec formula is the
Nat convention x / 0 = 0, matching the explicit total == 0 check in the
code). -/
theorem claim_C2 (a b : List Nat)
    (ha : ∀ x ∈ a, x < 256) (hb : ∀ x ∈ b, x < 256) :
    calculate_bitmask_similarity a a.length b b.length = dice_similarity a b := by
  unfold calculate_bitmask_similarity dice_similarity
  by_cases hempty : a = [] ∨ b = []
  · rcases hempty with h | h <;> simp [h]
  · push_neg at hempty
    have hane : a ≠ [] := hempty.1
    have hbne : b ≠ [] := hempty.2
    have hal : a.length ≠ 0 := by simpa using hane
    have hbl : b.length ≠ 0 := by simpa using hbne
    rw [if_neg (by tauto)]
    rw [if_neg (show ¬ (a.length = 0 ∨ b.length = 0) by tauto)]
    have hmin : (if a.length < b.length then a.length else b.length) =
        min a.length b.length := by
      rw [Nat.min_def]
      split <;> split <;> omega
    have hrd8a : ∀ i, rd8 a i = a.getD i 0 := fun i => rd8_eq_getD a i ha
    have hrd8b : ∀ i, rd8 b i = b.getD i 0 := fun i => rd8_eq_getD b i hb
    simp only [hmin, hrd8a, hrd8b]
    have hand : (Finset.range (min a.length b.length)).sum
        (fun i => popcount8 (Nat.land (a.getD i 0) (b.getD i 0))) =
        ((a.zip b).map (fun p => popcount8 (Nat.land p.1 p.2))).sum :=
      sum_range_getD2 (fun x y => popcount8 (Nat.land x y)) a b
    have hasum : (Finset.range (min a.length b.length)).sum
          (fun i => popcount8 (a.getD i 0)) +
        (Finset.Ico (min a.length b.length) a.length).sum
          (fun i => popcount8 (a.getD i 0)) = (a.map popcount8).sum := by
      rw [Finset.range_eq_Ico,
        Finset.sum_Ico_consecutive _ (Nat.zero_le _) (Nat.min_le_left _ _),
        ← Finset.range_eq_Ico, sum_range_getD]
    have hbsum : (Finset.range (min a.length b.length)).sum
          (fun i => popcount8 (b.getD i 0)) +
        (Finset.Ico (min a.length b.length) b.length).sum
          (fun i => popcount8 (b.getD i 0)) = (b.map popcount8).sum := by
      rw [Finset.range_eq_Ico,
        Finset.sum_Ico_consecutive _ (Nat.zero_le _) (Nat.min_le_right _ _),
        ← Finset.range_eq_Ico, sum_range_getD]
    rw [hand, hasum, hbsum]
    set andS := ((a.zip b).map (fun p => popcount8 (Nat.land p.1 p.2))).sum
      with handS
    set aS := (a.map popcount8).sum with haS
    set bS := (b.map popcount8).sum with hbS
    by_cases htot : aS + bS = 0
    · simp [htot]
    · rw [if_neg htot]
      have hle1 : andS ≤ aS := by
        rw [handS, haS]
        exact zip_land_sum_le_left a b
      have hle2 : andS ≤ bS := by
        rw [handS, hbS]
        exact zip_land_sum_le_right a b
      have hq : 200 * andS / (aS + bS) ≤ 100 := by
        have h2 : 200 * andS ≤ 100 * (aS + bS) := by omega
        have h3 : 100 * (aS + bS) / (aS + bS) = 100 := by
          rw [Nat.mul_comm]
          exact Nat.mul_div_cancel_left 100 (Nat.pos_of_ne_zero htot)
        calc 200 * andS / (aS + bS) ≤ 100 * (aS + bS) / (aS + bS) :=
              Nat.div_le_div_right h2
          _ = 100 := h3
      exact Nat.mod_eq_of_lt (Nat.lt_of_le_of_lt hq (by norm_num))

/-- Witness for claim C2 at concrete buffers of different lengths. -/
theorem claim_C2_witness :
    (∀ x ∈ [255, 15], x < 256) ∧ (∀ x ∈ [170], x < 256) ∧
      calculate_bitmask_similarity [255, 15] 2 [170] 1 =
        dice_similarity [255, 15] [170] :=
  ⟨by decide, by decide, claim_C2 [255, 15] [170] (by decide) (by decide)⟩


/-- Claim C10: calling pairing_set_pubkey or pairing_set_bitmask with valid
arguments on a context whose identity fields are both already set resets the
context as a side effect: state SEARCHING, partner address, partner public
key and partner bitmask cleared, key-exchange subcontext zeroed. -/
theorem claim_C10 :
    (∀ (c : pairing_ctx_t) (k : List Nat) (now : Nat),
      c.has_bitmask = true → c.has_pubkey = true →
      (pairing_set_pubkey c k now).current_state = SEARCHING ∧
      (pairing_set_pubkey c k now).partner_mac = List.replicate 6 0 ∧
      (pairing_set_pubkey c k now).partner_public_key = [] ∧
      (pairing_set_pubkey c k now).partner_bitmask = [] ∧
      (pairing_set_pubkey c k now).partner_bitmask_len = 0 ∧
      (pairing_set_pubkey c k now).kex = kexZero) ∧
    (∀ (c : pairing_ctx_t) (d : List Nat) (len now : Nat),
      c.has_bitmask = true → c.has_pubkey = true →
      d ≠ [] → 0 < len → len ≤ PAIRING_BITMASK_MAX_LEN →
      (pairing_set_bitmask c d len now).current_state = SEARCHING ∧
      (pairing_set_bitmask c d len now).partner_mac = List.replicate 6 0 ∧
      (pairing_set_bitmask c d len now).partner_public_key = [] ∧
      (pairing_set_bitmask c d len now).partner_bitmask = [] ∧
      (pairing_set_bitmask c d len now).partner_bitmask_len = 0 ∧
      (pairing_set_bitmask c d len now).kex = kexZero) := by
  constructor
  · intro c k now hb hp
    simp [pairing_set_pubkey, pairing_is_ready, pairing_reset, hb]
  · intro c d len now hb hp hd hlen hmax
    have hguard : ¬ (d = [] ∨ len = 0 ∨ len > PAIRING_BITMASK_MAX_LEN) := by
      push_neg
      exact ⟨hd, by omega, by omega⟩
    simp [pairing_set_bitmask, hguard, pairing_is_ready, pairing_reset, hp]

/-- Witness for claim C10: re-configuring the key while PAIRED resets. -/
theorem claim_C10_witness :
    cexPaired.has_bitmask = true ∧ cexPaired.has_pubkey = true ∧
      (pairing_set_pubkey cexPaired [67] 42).current_state = SEARCHING ∧
      (pairing_set_pubkey cexPaired [67] 42).partner_public_key = [] := by
  refine ⟨by decide, by decide, ?_, ?_⟩
  · exact (claim_C10.1 cexPaired [67] 42 (by decide) (by decide)).1
  · exact (claim_C10.1 cexPaired [67] 42 (by decide) (by decide)).2.2.1

/-- Claim C8: a ready context receiving a buffer that is shorter than the
header, carries the wrong protocol tag, declares a bitmask longer than the
maximum, or declares a bitmask extending past the received length, is left
completely unchanged and sends nothing. -/
theorem claim_C8 (c : pairing_ctx_t) (mac_addr data : List Nat) (rssi : Int)
    (now : Nat) (hready : pairing_is_ready c = true)
    (h : data.length < HEADER_SIZE ∨ rd8 data 0 ≠ PAIRING_PROTOCOL_ID ∨
      rd16 data 24 > PAIRING_BITMASK_MAX_LEN ∨
      HEADER_SIZE + rd16 data 24 > data.length) :
    pairing_handle_recv c mac_addr data rssi now = (c, []) := by
  unfold pairing_handle_recv
  rw [if_neg (by simp [hready])]
  by_cases hlen : data.length < HEADER_SIZE
  · rw [if_pos hlen]
  · rw [if_neg hlen]
    by_cases htag : rd8 data 0 ≠ PAIRING_PROTOCOL_ID
    · rw [if_pos htag]
    · rw [if_neg htag]
      have hparse : parse_incoming_packet data = none := by
        unfold parse_incoming_packet
        rw [if_neg hlen]
        rcases h with h | h | h | h
        · exact absurd h hlen
        · exact absurd h htag
        · rw [if_pos h]
        · by_cases hmax : rd16 data 24 > PAIRING_BITMASK_MAX_LEN
          · rw [if_pos hmax]
          · rw [if_neg hmax, if_pos h]
      rw [hparse]

/-- Witness for claim C8 on the empty buffer. -/
theorem claim_C8_witness :
    pairing_is_ready cexPaired = true ∧
      ([] : List Nat).length < HEADER_SIZE ∧
      pairing_handle_recv cexPaired cexOther [] (-40) 0 = (cexPaired, []) :=
  ⟨by decide, by decide,
    claim_C8 cexPaired cexOther [] (-40) 0 (by decide) (Or.inl (by decide))⟩

/-- Counterexample to claim C4 as stated: a tick after the proposal timeout
moves a PROPOSING context to SEARCHING but does not clear the partner
bitmask or the partner address. -/
theorem claim_C4_counterexample :
    (pairing_tick cexProposing 5001).1.current_state = SEARCHING ∧
      (pairing_tick cexProposing 5001).1.partner_bitmask ≠ [] ∧
      (pairing_tick cexProposing 5001).1.partner_mac ≠ List.replicate 6 0 := by
  refine ⟨by decide, by decide, by decide⟩

/-- Claim C4 as amended: a tick in PROPOSING past the proposal timeout only
sets the state to SEARCHING and stamps last_action_time; no partner field is
cleared and nothing is sent. -/
theorem claim_C4 (c : pairing_ctx_t) (now : Nat)
    (hready : pairing_is_ready c = true)
    (hst : c.current_state = PROPOSING)
    (ht : sub32 now c.last_action_time > PAIRING_TIMEOUT_MS) :
    pairing_tick c now =
      ({ c with current_state := SEARCHING, last_action_time := u32 now }, []) := by
  unfold pairing_tick
  rw [if_neg (by simp [hready]), hst]
  simp [ht]

/-- Witness for the amended claim C4 at a concrete timed-out context. -/
theorem claim_C4_witness :
    pairing_is_ready cexProposing = true ∧
      cexProposing.current_state = PROPOSING ∧
      sub32 5001 cexProposing.last_action_time > PAIRING_TIMEOUT_MS ∧
      pairing_tick cexProposing 5001 =
        ({ cexProposing with current_state := SEARCHING, last_action_time := 5001 }, []) :=
  ⟨by decide, by decide, by decide,
    claim_C4 cexProposing 5001 (by decide) (by decide) (by decide)⟩

/-- Counterexample to claim C5 as stated: at exactly 5000 ms of heartbeat
silence (interval 1000 ms times max-miss 5) the tick does not reset; the
comparison in the code is strict. -/
theorem claim_C5_counterexample :
    sub32 5000 cexPairedIdle.last_heartbeat_recv =
        PAIRING_HEARTBEAT_MS * PAIRING_HEARTBEAT_MISS_MAX ∧
      (pairing_tick cexPairedIdle 5000).1.current_state = PAIRED := by
  exact ⟨by decide, by decide⟩

/-- Claim C5 as amended: a tick in PAIRED with strictly more than 5000 ms
since the last received heartbeat resets to SEARCHING and discards all
partner state. -/
theorem claim_C5 (c : pairing_ctx_t) (now : Nat)
    (hready : pairing_is_ready c = true)
    (hst : c.current_state = PAIRED)
    (ht : sub32 now c.last_heartbeat_recv >
      PAIRING_HEARTBEAT_MS * PAIRING_HEARTBEAT_MISS_MAX) :
    (pairing_tick c now).1.current_state = SEARCHING ∧
      (pairing_tick c now).1.partner_mac = List.replicate 6 0 ∧
      (pairing_tick c now).1.partner_public_key = [] ∧
      (pairing_tick c now).1.partner_bitmask = [] ∧
      (pairing_tick c now).1.partner_bitmask_len = 0 ∧
      (pairing_tick c now).1.kex = kexZero := by
  unfold pairing_tick
  rw [if_neg (by simp [hready]), hst]
  by_cases hsend : sub32 now c.last_heartbeat_sent > PAIRING_HEARTBEAT_MS <;>
    simp [hsend, send_heartbeat, ht, pairing_reset]

/-- Witness for the amended claim C5 at 5001 ms of silence. -/
theorem claim_C5_witness :
    pairing_is_ready cexPairedIdle = true ∧
      cexPairedIdle.current_state = PAIRED ∧
      sub32 5001 cexPairedIdle.last_heartbeat_recv >
        PAIRING_HEARTBEAT_MS * PAIRING_HEARTBEAT_MISS_MAX ∧
      (pairing_tick cexPairedIdle 5001).1.current_state = SEARCHING :=
  ⟨by decide, by decide, by decide,
    (claim_C5 cexPairedIdle 5001 (by decide) (by decide) (by decide)).1⟩


/-- The context part of accept_pairing does not depend on the send. -/
theorem accept_pairing_fst (c : pairing_ctx_t) (t : List Nat) (n : Nat) :
    (accept_pairing c t n).1 =
      { c with
        partner_mac := mac6 t
        current_state := PAIRED
        last_heartbeat_sent := u32 n
        last_heartbeat_recv := u32 n
        heartbeat_seq := 0
        kex := { kexZero with active := true } } := by
  unfold accept_pairing
  cases hb : build_packet_with_bitmask
      { c with
        partner_mac := mac6 t
        current_state := PAIRED
        last_heartbeat_sent := u32 n
        last_heartbeat_recv := u32 n
        heartbeat_seq := 0
        kex := { kexZero with active := true } }
      (HEADER_SIZE + PAIRING_BITMASK_MAX_LEN + PAIRING_KEY_MAX_LEN)
      MSG_ACCEPT (some c.my_public_key) n <;> simp [hb]

/-- The context part of propose_pairing does not depend on the send. -/
theorem propose_pairing_fst (c : pairing_ctx_t) (t : List Nat) (n : Nat) :
    (propose_pairing c t n).1 =
      { c with
        partner_mac := mac6 t
        current_state := PROPOSING
        last_action_time := u32 n } := by
  unfold propose_pairing
  cases hb : build_packet_with_bitmask
      { c with
        partner_mac := mac6 t
        current_state := PROPOSING
        last_action_time := u32 n }
      (HEADER_SIZE + PAIRING_BITMASK_MAX_LEN + PAIRING_KEY_MAX_LEN)
      MSG_PROPOSAL (some c.my_public_key) n <;> simp [hb]

/-- The packet send_reject produces: one REJECT datagram to the target. -/
theorem send_reject_spec (c : pairing_ctx_t) (t : List Nat) (n : Nat) :
    ∃ pkt, send_reject c t n = [pkt] ∧ pkt.dest = mac6 t ∧
      rd8 pkt.bytes 1 = MSG_REJECT := by
  refine ⟨_, rfl, rfl, ?_⟩
  simp [mkHeader, rd8, MSG_REJECT, PAIRING_PROTOCOL_ID]

/-- Byte 1 of a serialized header is the message type. -/
theorem rd8_mkHeader_append_1 (p m : Nat) (s pa : List Nat) (u st : Nat)
    (r : Int) (q bl : Nat) (P : List Nat) :
    rd8 (mkHeader p m s pa u st r q bl ++ P) 1 = m % 256 := by
  simp [mkHeader, rd8]

/-- Every buffer produced by build_packet_with_bitmask carries its message
type at byte offset 1. -/
theorem build_msg_byte (c : pairing_ctx_t) (bs mt : Nat)
    (pk : Option (List Nat)) (n : Nat) (buf : List Nat)
    (h : build_packet_with_bitmask c bs mt pk n = some buf) :
    rd8 buf 1 = mt % 256 := by
  simp only [build_packet_with_bitmask] at h
  cases pk with
  | none =>
    split at h
    · exact Option.noConfusion h
    · have hb := Option.some.inj h
      subst hb
      exact rd8_mkHeader_append_1 _ _ _ _ _ _ _ _ _ _
  | some k =>
    split at h
    · exact Option.noConfusion h
    · have hb := Option.some.inj h
      subst hb
      exact rd8_mkHeader_append_1 _ _ _ _ _ _ _ _ _ _

/-- The C-string length never exceeds the modelled buffer length. -/
theorem cstrlen_le (s : List Nat) : cstrlen s ≤ s.length := by
  unfold cstrlen
  exact List.Sublist.length_le (List.takeWhile_sublist _)

/-- With in-bounds identity fields, accept_pairing always emits exactly one
ACCEPT datagram to the target (the packet fits its stack buffer). -/
theorem accept_pairing_sends (c : pairing_ctx_t) (t : List Nat) (n : Nat)
    (hbml : c.bitmask_len ≤ PAIRING_BITMASK_MAX_LEN)
    (hkey : c.my_public_key.length < PAIRING_KEY_MAX_LEN) :
    ∃ pkt, (accept_pairing c t n).2 = [pkt] ∧ pkt.dest = mac6 t ∧
      rd8 pkt.bytes 1 = MSG_ACCEPT := by
  unfold accept_pairing
  have hfit : ¬ (HEADER_SIZE + c.bitmask_len +
      (cstrlen c.my_public_key + 1) >
      HEADER_SIZE + PAIRING_BITMASK_MAX_LEN + PAIRING_KEY_MAX_LEN) := by
    have h1 := cstrlen_le c.my_public_key
    unfold HEADER_SIZE PAIRING_BITMASK_MAX_LEN PAIRING_KEY_MAX_LEN at *
    omega
  cases hb : build_packet_with_bitmask
      { c with
        partner_mac := mac6 t
        current_state := PAIRED
        last_heartbeat_sent := u32 n
        last_heartbeat_recv := u32 n
        heartbeat_seq := 0
        kex := { kexZero with active := true } }
      (HEADER_SIZE + PAIRING_BITMASK_MAX_LEN + PAIRING_KEY_MAX_LEN)
      MSG_ACCEPT (some c.my_public_key) n with
  | none =>
    exfalso
    unfold build_packet_with_bitmask at hb
    rw [if_neg hfit] at hb
    exact Option.noConfusion hb
  | some buf =>
    refine ⟨⟨mac6 t, buf⟩, ?_, rfl, ?_⟩
    · simp [hb]
    · have hm := build_msg_byte _ _ _ _ _ _ hb
      simpa [MSG_ACCEPT] using hm

/-- Claim C1 as amended: in PROPOSING, a PROPOSAL from a third party is
accepted (transition to PAIRED, ACCEPT sent) exactly when the RSSI clears
the minimum-proximity floor, the packet carries both a public key and a
bitmask, and the third party is closer (strictly higher RSSI than the
stored proposal_rssi, or equal RSSI and numerically greater address);
otherwise a REJECT is sent to the third party and the context is unchanged,
remaining in PROPOSING. -/
theorem claim_C1 (c : pairing_ctx_t) (mac_addr data : List Nat) (rssi : Int)
    (now : Nat) (p : parsed_packet)
    (hready : pairing_is_ready c = true)
    (hst : c.current_state = PROPOSING)
    (hmac : mac6_eq c.partner_mac mac_addr = false)
    (hlen : ¬ data.length < HEADER_SIZE)
    (htag : rd8 data 0 = PAIRING_PROTOCOL_ID)
    (hmt : rd8 data 1 = MSG_PROPOSAL)
    (hp : parse_incoming_packet data = some p)
    (hbml : c.bitmask_len ≤ PAIRING_BITMASK_MAX_LEN)
    (hkey : c.my_public_key.length < PAIRING_KEY_MAX_LEN) :
    ((PAIRING_MIN_RSSI_PROPOSING ≤ rssi ∧ p.pubkey ≠ none ∧ p.bitmask ≠ none ∧
      (rssi > c.proposal_rssi ∨ (rssi = c.proposal_rssi ∧
        lex_gt (mac6 mac_addr) (mac6 c.partner_mac) = true))) →
      (pairing_handle_recv c mac_addr data rssi now).1.current_state = PAIRED ∧
      (pairing_handle_recv c mac_addr data rssi now).1.partner_mac = mac6 mac_addr ∧
      ∃ pkt, (pairing_handle_recv c mac_addr data rssi now).2 = [pkt] ∧
        pkt.dest = mac6 mac_addr ∧ rd8 pkt.bytes 1 = MSG_ACCEPT) ∧
    (¬ (PAIRING_MIN_RSSI_PROPOSING ≤ rssi ∧ p.pubkey ≠ none ∧ p.bitmask ≠ none ∧
      (rssi > c.proposal_rssi ∨ (rssi = c.proposal_rssi ∧
        lex_gt (mac6 mac_addr) (mac6 c.partner_mac) = true))) →
      (pairing_handle_recv c mac_addr data rssi now).1 = c ∧
      ∃ pkt, (pairing_handle_recv c mac_addr data rssi now).2 = [pkt] ∧
        pkt.dest = mac6 mac_addr ∧ rd8 pkt.bytes 1 = MSG_REJECT) := by
  have hred : pairing_handle_recv c mac_addr data rssi now =
      handle_recv_proposing c mac_addr data (rd8 data 1) p rssi now := by
    unfold pairing_handle_recv
    rw [if_neg (by simp [hready]), if_neg hlen, if_neg (by simp [htag]), hp, hst]
  rw [hred]
  unfold handle_recv_proposing
  rw [if_neg (by simp [hmac]), hmt, if_pos rfl]
  by_cases h1 : rssi < PAIRING_MIN_RSSI_PROPOSING
  · rw [if_pos h1]
    constructor
    · intro hA
      exact absurd hA.1 (by omega)
    · intro hA
      exact ⟨rfl, send_reject_spec c mac_addr now⟩
  · rw [if_neg h1]
    by_cases h2 : p.pubkey = none ∨ p.bitmask = none
    · rw [if_pos h2]
      constructor
      · intro hA
        rcases h2 with h2 | h2
        · exact absurd h2 hA.2.1
        · exact absurd h2 hA.2.2.1
      · intro hA
        exact ⟨rfl, send_reject_spec c mac_addr now⟩
    · rw [if_neg h2]
      by_cases hcl : rssi > c.proposal_rssi ∨ (rssi = c.proposal_rssi ∧
          lex_gt (mac6 mac_addr) (mac6 c.partner_mac) = true)
      · rw [if_neg (not_not_intro hcl)]
        constructor
        · intro hA
          refine ⟨?_, ?_, ?_⟩
          · rw [accept_pairing_fst]
          · rw [accept_pairing_fst]
          · exact accept_pairing_sends _ mac_addr now hbml hkey
        · intro hA
          push_neg at h2
          exact absurd ⟨by omega, h2.1, h2.2, hcl⟩ hA
      · rw [if_pos hcl]
        constructor
        · intro hA
          exact absurd hA.2.2.2 hcl
        · intro hA
          exact ⟨rfl, send_reject_spec c mac_addr now⟩

/-- Counterexample to claim C1 as stated: a third party that is closer
(RSSI -75 against stored -90) but below the -70 minimum-proximity floor is
rejected instead of accepted. -/
theorem claim_C1_counterexample :
    ((-75 : Int) > cexProposing.proposal_rssi) ∧
      cexProposing.current_state = PROPOSING ∧
      mac6_eq cexProposing.partner_mac cexOther = false ∧
      (pairing_handle_recv cexProposing cexOther cexProposalPkt
        (-75) 5).1.current_state ≠ PAIRED ∧
      ((pairing_handle_recv cexProposing cexOther cexProposalPkt
        (-75) 5).2.map (fun q => rd8 q.bytes 1)) = [MSG_REJECT] := by
  refine ⟨by decide, by decide, by decide, by decide, by decide⟩

/-- Witness for the amended claim C1: a closer third party above the floor
is accepted. -/
theorem claim_C1_witness :
    pairing_is_ready cexProposing = true ∧
      (pairing_handle_recv cexProposing cexOther cexProposalPkt
        (-60) 5).1.current_state = PAIRED := by
  have h := claim_C1 cexProposing cexOther cexProposalPkt (-60) 5
    ⟨some [255], 1, some [66, 0]⟩ (by decide) (by decide) (by decide)
    (by decide) (by decide) (by decide) (by decide) (by decide) (by decide)
  exact ⟨by decide, (h.1 ⟨by decide, by decide, by decide, Or.inl (by decide)⟩).1⟩

/-- Claim C6 as amended: in PAIRED, a PROPOSAL from a sender other than the
current partner draws a REJECT to that sender with the context unchanged; a
PROPOSAL from the current partner is silently ignored (no REJECT is sent);
the state remains PAIRED in both cases. -/
theorem claim_C6 (c : pairing_ctx_t) (mac_addr data : List Nat) (rssi : Int)
    (now : Nat) (p : parsed_packet)
    (hready : pairing_is_ready c = true)
    (hst : c.current_state = PAIRED)
    (hlen : ¬ data.length < HEADER_SIZE)
    (htag : rd8 data 0 = PAIRING_PROTOCOL_ID)
    (hmt : rd8 data 1 = MSG_PROPOSAL)
    (hp : parse_incoming_packet data = some p) :
    (mac6_eq c.partner_mac mac_addr = true →
      pairing_handle_recv c mac_addr data rssi now = (c, [])) ∧
    (mac6_eq c.partner_mac mac_addr = false →
      (pairing_handle_recv c mac_addr data rssi now).1 = c ∧
      ∃ pkt, (pairing_handle_recv c mac_addr data rssi now).2 = [pkt] ∧
        pkt.dest = mac6 mac_addr ∧ rd8 pkt.bytes 1 = MSG_REJECT) := by
  have hred : pairing_handle_recv c mac_addr data rssi now =
      handle_recv_paired c mac_addr data (rd8 data 1) p rssi now := by
    unfold pairing_handle_recv
    rw [if_neg (by simp [hready]), if_neg hlen, if_neg (by simp [htag]), hp, hst]
  rw [hred]
  unfold handle_recv_paired
  constructor
  · intro hm
    rw [if_pos hm, hmt]
    simp [MSG_PROPOSAL, MSG_HEARTBEAT, MSG_KEY_EXCHANGE, MSG_RELAY_URL]
  · intro hm
    rw [if_neg (by simp [hm]), hmt, if_pos rfl]
    exact ⟨rfl, send_reject_spec c mac_addr now⟩

/-- Counterexample to claim C6 as stated: a PROPOSAL from the current
partner while PAIRED is ignored; no REJECT is sent. -/
theorem claim_C6_counterexample :
    cexPaired.current_state = PAIRED ∧
      mac6_eq cexPaired.partner_mac cexPartner = true ∧
      rd8 cexProposalPkt 1 = MSG_PROPOSAL ∧
      pairing_handle_recv cexPaired cexPartner cexProposalPkt (-40) 5 =
        (cexPaired, []) := by
  refine ⟨by decide, by decide, by decide, by decide⟩

/-- Witness for the amended claim C6: a third-party PROPOSAL while PAIRED
draws a REJECT. -/
theorem claim_C6_witness :
    (pairing_handle_recv cexPaired cexOther cexProposalPkt (-40) 5).1 =
        cexPaired ∧
      ∃ pkt, (pairing_handle_recv cexPaired cexOther cexProposalPkt
          (-40) 5).2 = [pkt] ∧
        pkt.dest = mac6 cexOther ∧ rd8 pkt.bytes 1 = MSG_REJECT :=
  (claim_C6 cexPaired cexOther cexProposalPkt (-40) 5
    ⟨some [255], 1, some [66, 0]⟩ (by decide) (by decide) (by decide)
    (by decide) (by decide) (by decide)).2 (by decide)


/-- pairing_reset establishes the context invariant. -/
theorem CtxInv_reset (c : pairing_ctx_t) (now : Nat) :
    CtxInv (pairing_reset c now) := by
  refine ⟨fun _ => rfl, fun hx => ?_, fun hx => ?_⟩ <;>
    simp [pairing_reset] at hx

/-- A freshly initialized context satisfies the invariant. -/
theorem CtxInv_init (mac : List Nat) (now : Nat) :
    CtxInv (pairing_init mac now) := by
  refine ⟨fun _ => rfl, fun hx => ?_, fun hx => ?_⟩ <;>
    simp [pairing_init] at hx

/-- pairing_set_pubkey preserves the invariant. -/
theorem CtxInv_set_pubkey (c : pairing_ctx_t) (k : List Nat) (now : Nat)
    (h : CtxInv c) : CtxInv (pairing_set_pubkey c k now) := by
  unfold pairing_set_pubkey
  dsimp only
  split
  · exact CtxInv_reset _ now
  · exact ⟨h.1, h.2.1, h.2.2⟩

/-- pairing_set_bitmask preserves the invariant. -/
theorem CtxInv_set_bitmask (c : pairing_ctx_t) (d : List Nat) (len now : Nat)
    (h : CtxInv c) : CtxInv (pairing_set_bitmask c d len now) := by
  unfold pairing_set_bitmask
  split
  · exact h
  · dsimp only
    split
    · exact CtxInv_reset _ now
    · exact ⟨h.1, h.2.1, h.2.2⟩

/-- pairing_set_relay_url preserves the invariant. -/
theorem CtxInv_set_relay_url (c : pairing_ctx_t) (url : List Nat)
    (h : CtxInv c) : CtxInv (pairing_set_relay_url c url) := by
  unfold pairing_set_relay_url
  split
  · exact h
  · exact ⟨h.1, h.2.1, fun hx => h.2.2 hx⟩

/-- pairing_set_similarity_threshold preserves the invariant. -/
theorem CtxInv_set_threshold (c : pairing_ctx_t) (t : Nat)
    (h : CtxInv c) : CtxInv (pairing_set_similarity_threshold c t) := by
  exact ⟨h.1, h.2.1, h.2.2⟩

/-- The SEARCHING receive arm preserves the invariant. -/
theorem CtxInv_searching (c : pairing_ctx_t) (mac_addr : List Nat)
    (mt : Nat) (p : parsed_packet) (rssi : Int) (now : Nat)
    (h : CtxInv c) (hst : c.current_state = SEARCHING) :
    CtxInv (handle_recv_searching c mac_addr mt p rssi now).1 := by
  unfold handle_recv_searching
  split
  · -- HELLO
    split
    · exact h
    · dsimp only
      split
      · exact h
      · rw [propose_pairing_fst]
        refine ⟨fun hx => ?_, fun hx => ?_, fun hx => ?_⟩
        · simp at hx
        · exact h.1 hst
        · simp at hx
  · split
    · -- PROPOSAL
      split
      · exact h
      · rw [accept_pairing_fst]
        refine ⟨fun hx => ?_, fun hx => ?_, fun hx => ?_⟩
        · simp at hx
        · simp at hx
        · rfl
    · exact h

/-- The PROPOSING receive arm preserves the invariant. -/
theorem CtxInv_proposing (c : pairing_ctx_t) (mac_addr data : List Nat)
    (mt : Nat) (p : parsed_packet) (rssi : Int) (now : Nat)
    (h : CtxInv c) (hst : c.current_state = PROPOSING) :
    CtxInv (handle_recv_proposing c mac_addr data mt p rssi now).1 := by
  unfold handle_recv_proposing
  split
  · -- from the tracked partner
    split
    · -- ACCEPT
      split
      · exact h
      · split
        · exact h
        · dsimp only
          refine ⟨fun hx => ?_, fun hx => ?_, fun hx => ?_⟩
          · simp at hx
          · simp at hx
          · rfl
    · split
      · -- REJECT
        refine ⟨fun hx => ?_, fun hx => ?_, fun hx => ?_⟩
        · exact h.2.1 hst
        · simp at hx
        · simp at hx
      · exact h
  · split
    · -- third-party PROPOSAL
      split
      · exact ⟨h.1, h.2.1, h.2.2⟩
      · split
        · exact ⟨h.1, h.2.1, h.2.2⟩
        · split
          · exact ⟨h.1, h.2.1, h.2.2⟩
          · rw [accept_pairing_fst]
            refine ⟨fun hx => ?_, fun hx => ?_, fun hx => ?_⟩
            · simp at hx
            · simp at hx
            · rfl
    · exact h

/-- The PAIRED receive arm preserves the invariant. -/
theorem CtxInv_paired (c : pairing_ctx_t) (mac_addr data : List Nat)
    (mt : Nat) (p : parsed_packet) (rssi : Int) (now : Nat)
    (h : CtxInv c) (hst : c.current_state = PAIRED) :
    CtxInv (handle_recv_paired c mac_addr data mt p rssi now).1 := by
  unfold handle_recv_paired
  split
  · split
    · -- HEARTBEAT
      refine ⟨fun hx => ?_, fun hx => ?_, fun hx => ?_⟩
      · rw [handle_heartbeat] at hx
        simp at hx
        exact absurd (hst ▸ hx) (by simp)
      · rw [handle_heartbeat] at hx
        simp at hx
        exact absurd (hst ▸ hx) (by simp)
      · exact h.2.2 hst
    · split
      · -- KEY_EXCHANGE
        refine ⟨fun hx => ?_, fun hx => ?_, fun hx => ?_⟩
        · simp at hx
          exact absurd (hst ▸ hx) (by simp)
        · simp at hx
          exact absurd (hst ▸ hx) (by simp)
        · exact h.2.2 hst
      · split
        · -- RELAY_URL
          split
          · refine ⟨fun hx => ?_, fun hx => ?_, fun hx => ?_⟩
            · simp at hx
              exact absurd (hst ▸ hx) (by simp)
            · simp at hx
              exact absurd (hst ▸ hx) (by simp)
            · simpa using h.2.2 hst
          · exact h
        · exact h
  · split
    · exact ⟨h.1, h.2.1, h.2.2⟩
    · exact h

/-- pairing_handle_recv preserves the invariant. -/
theorem CtxInv_handle_recv (c : pairing_ctx_t) (mac_addr data : List Nat)
    (rssi : Int) (now : Nat) (h : CtxInv c) :
    CtxInv (pairing_handle_recv c mac_addr data rssi now).1 := by
  unfold pairing_handle_recv
  split
  · exact h
  · split
    · exact h
    · split
      · exact h
      · split
        · exact h
        · split
          · exact CtxInv_searching _ _ _ _ _ _ h (by assumption)
          · exact CtxInv_proposing _ _ _ _ _ _ _ h (by assumption)
          · exact CtxInv_paired _ _ _ _ _ _ _ h (by assumption)

/-- The key-exchange tick never changes the state, the partner key or the
armed flag of the key exchange. -/
theorem tick_kex_fields (c : pairing_ctx_t) (s : List sent_packet) (n : Nat) :
    (tick_kex c s n).1.current_state = c.current_state ∧
    (tick_kex c s n).1.partner_public_key = c.partner_public_key ∧
    (tick_kex c s n).1.kex.active = c.kex.active := by
  unfold tick_kex
  cases hact : c.kex.active <;>
    cases hks : c.kex.key_sent <;>
    cases hkc : c.kex.key_confirmed <;>
    cases hnp : c.kex.notified_phone <;>
    cases hou : c.kex.has_outgoing_url <;>
    cases hos : c.kex.outgoing_url_sent <;>
    cases hin : c.kex.has_incoming_url <;>
    simp [hact, hks, hkc, hnp, hou, hos, hin]

/-- The key-exchange tick preserves the invariant while PAIRED. -/
theorem CtxInv_tick_kex (c : pairing_ctx_t) (s : List sent_packet) (n : Nat)
    (h1 : c.current_state = PAIRED) (h2 : c.kex.active = true) :
    CtxInv (tick_kex c s n).1 := by
  have hf := tick_kex_fields c s n
  refine ⟨fun hx => ?_, fun hx => ?_, fun hx => ?_⟩
  · rw [hf.1, h1] at hx
    exact absurd hx (by simp)
  · rw [hf.1, h1] at hx
    exact absurd hx (by simp)
  · rw [hf.2.2, h2]

/-- pairing_tick preserves the invariant. -/
theorem CtxInv_tick (c : pairing_ctx_t) (now : Nat) (h : CtxInv c) :
    CtxInv (pairing_tick c now).1 := by
  unfold pairing_tick
  split
  · exact h
  · split
    · -- SEARCHING
      split
      · exact ⟨h.1, h.2.1, h.2.2⟩
      · exact h
    · -- PROPOSING
      rename_i hst
      split
      · exact ⟨fun _ => h.2.1 hst, fun hx => absurd hx (by simp),
          fun hx => absurd hx (by simp)⟩
      · exact h
    · -- PAIRED
      rename_i hst
      dsimp only
      by_cases hhb : sub32 now c.last_heartbeat_sent > PAIRING_HEARTBEAT_MS
      · rw [if_pos hhb]
        split
        · exact CtxInv_reset _ now
        · exact CtxInv_tick_kex _ _ _ hst (h.2.2 hst)
      · rw [if_neg hhb]
        split
        · exact CtxInv_reset _ now
        · exact CtxInv_tick_kex _ _ _ hst (h.2.2 hst)

/-- Every reachable context satisfies the invariant. -/
theorem reachable_CtxInv (c : pairing_ctx_t) (h : Reachable c) : CtxInv c := by
  induction h with
  | init mac now => exact CtxInv_init mac now
  | recv c mac_addr data rssi now hr ih => exact CtxInv_handle_recv _ _ _ _ _ ih
  | tick c now hr ih => exact CtxInv_tick _ _ ih
  | reset c now hr ih => exact CtxInv_reset _ _
  | set_pubkey c k now hr ih => exact CtxInv_set_pubkey _ _ _ ih
  | set_bitmask c d len now hr ih => exact CtxInv_set_bitmask _ _ _ _ ih
  | set_relay_url c url hr ih => exact CtxInv_set_relay_url _ _ ih
  | set_threshold c t hr ih => exact CtxInv_set_threshold _ _ ih

/-- Claim C3 as amended: in every reachable context in state SEARCHING the
partner public key is empty.  The partner bitmask half of the original claim
is false: the REJECT and proposal-timeout transitions back to SEARCHING do
not free it (see the counterexample). -/
theorem claim_C3 (c : pairing_ctx_t) (h : Reachable c)
    (hs : c.current_state = SEARCHING) : c.partner_public_key = [] :=
  (reachable_CtxInv c h).1 hs

/-- Witness for the amended claim C3 at a freshly initialized context. -/
theorem claim_C3_witness :
    (pairing_init cexMac 0).current_state = SEARCHING ∧
      (pairing_init cexMac 0).partner_public_key = [] :=
  ⟨by decide, claim_C3 (pairing_init cexMac 0) (Reachable.init cexMac 0) (by decide)⟩

/-- Counterexample to claim C3 as stated: a reachable context that proposed
after a HELLO and was then rejected is in SEARCHING with a non-empty partner
bitmask still allocated. -/
theorem claim_C3_counterexample :
    Reachable cexTrace4 ∧ cexTrace4.current_state = SEARCHING ∧
      cexTrace4.partner_bitmask ≠ [] ∧ cexTrace4.partner_bitmask_len ≠ 0 := by
  refine ⟨?_, by decide, by decide, by decide⟩
  exact Reachable.recv _ _ _ _ _ (Reachable.recv _ _ _ _ _
    (Reachable.set_bitmask _ _ _ _ (Reachable.set_pubkey _ _ _
      (Reachable.init cexMac 0))))

/-- Claim C9: on every reachable context, pairing_set_relay_url stores the
payload and queues it for sending exactly when the state is PAIRED (every
reachable PAIRED context has an active key exchange); otherwise the context
is left completely unchanged. -/
theorem claim_C9 (c : pairing_ctx_t) (url : List Nat) (h : Reachable c) :
    (c.current_state = PAIRED →
      pairing_set_relay_url c url =
        { c with kex := { c.kex with
            outgoing_url := strncpyM url KEY_EXCHANGE_URL_MAX_LEN
            has_outgoing_url := true
            outgoing_url_sent := false } }) ∧
    (c.current_state ≠ PAIRED → pairing_set_relay_url c url = c) := by
  constructor
  · intro hp
    have hact : c.kex.active = true := (reachable_CtxInv c h).2.2 hp
    unfold pairing_set_relay_url
    rw [if_neg]
    push_neg
    exact ⟨hp, by simp [hact]⟩
  · intro hp
    unfold pairing_set_relay_url
    rw [if_pos (Or.inl hp)]

/-- Witness for claim C9 on a reachable non-PAIRED context. -/
theorem claim_C9_witness :
    (pairing_init cexMac 0).current_state ≠ PAIRED ∧
      pairing_set_relay_url (pairing_init cexMac 0) [1, 2] =
        pairing_init cexMac 0 :=
  ⟨by decide, (claim_C9 (pairing_init cexMac 0) [1, 2]
    (Reachable.init cexMac 0)).2 (by decide)⟩


/-- readBytes always returns exactly n bytes. -/
theorem readBytes_length (l : List Nat) (n : Nat) : (readBytes l n).length = n := by
  simp [readBytes]

/-- Reading a whole buffer returns the buffer. -/
theorem readBytes_self (l : List Nat) : readBytes l l.length = l := by
  simp [readBytes, List.take_left]

/-- A serialized header is exactly HEADER_SIZE bytes. -/
theorem mkHeader_length (p m : Nat) (s pa : List Nat) (u st : Nat) (r : Int)
    (q bl : Nat) : (mkHeader p m s pa u st r q bl).length = HEADER_SIZE := by
  simp [mkHeader, mac6, le32, le16, HEADER_SIZE]

/-- For a NUL-free string, the copied bytes are the string plus its NUL. -/
theorem cstrBytes_of_clean (k : List Nat) (h : ∀ b ∈ k, b ≠ 0) :
    cstrBytes k = k ++ [0] := by
  unfold cstrBytes
  rw [List.takeWhile_eq_self_iff.2 (by simpa using h)]

/-- For a NUL-free string, strlen is the buffer length. -/
theorem cstrlen_of_clean (k : List Nat) (h : ∀ b ∈ k, b ≠ 0) :
    cstrlen k = k.length := by
  unfold cstrlen
  rw [List.takeWhile_eq_self_iff.2 (by simpa using h)]

/-- Normal form of a successful build_packet_with_bitmask: the serialized
header followed by the bitmask and the NUL-terminated trailing string. -/
theorem build_packet_eq (c : pairing_ctx_t) (key : Option (List Nat))
    (buf_size mt now : Nat)
    (hbm : c.bitmask.length = c.bitmask_len)
    (hkey : ∀ k, key = some k → ∀ b ∈ k, b ≠ 0)
    (hfit : HEADER_SIZE + c.bitmask_len + pubkeyWireLen key ≤ buf_size) :
    build_packet_with_bitmask c buf_size mt key now =
      some (mkHeader PAIRING_PROTOCOL_ID mt c.my_mac c.partner_mac (u32 now)
        (stateByte c.current_state) c.partner_rssi 0 c.bitmask_len ++
        (c.bitmask ++ pubkeyTail key)) := by
  unfold build_packet_with_bitmask pubkeyTail
  unfold pubkeyWireLen at hfit
  cases key with
  | none =>
    rw [if_neg (by simpa using hfit)]
    dsimp only
    by_cases hbl : c.bitmask_len = 0
    · have hnil : c.bitmask = [] := by
        rw [← List.length_eq_zero]
        omega
      rw [if_neg (by simp [hbl])]
      simp [hbl, hnil]
    · have hne : c.bitmask ≠ [] := by
        intro hx
        rw [hx] at hbm
        simp at hbm
        omega
      rw [if_pos ⟨by omega, hne⟩]
      simp [splice, ← hbm, readBytes_self, readBytes_length, List.take_left]
  | some k =>
    have hcl : cstrlen k = k.length := cstrlen_of_clean k (hkey k rfl)
    have hcb : cstrBytes k = k ++ [0] := cstrBytes_of_clean k (hkey k rfl)
    rw [if_neg (by simp only [hcl]; simpa using hfit)]
    dsimp only
    by_cases hbl : c.bitmask_len = 0
    · have hnil : c.bitmask = [] := by
        rw [← List.length_eq_zero]
        omega
      rw [if_neg (by simp [hbl])]
      simp only [hbl, hcb, hnil, hcl, splice]
      simp
    · have hne : c.bitmask ≠ [] := by
        intro hx
        rw [hx] at hbm
        simp at hbm
        omega
      rw [if_pos ⟨by omega, hne⟩]
      have hpos : 0 < c.bitmask.length := List.length_pos.2 hne
      simp [splice, hcb, hcl, ← hbm, readBytes_self, readBytes_length,
        List.take_left, List.drop_left, List.drop_replicate,
        Nat.add_sub_cancel_left, hpos, hne, List.drop_append]

/-- Byte 0 of a serialized header is the protocol tag. -/
theorem rd8_mkHeader_append_0 (p m : Nat) (s pa : List Nat) (u st : Nat)
    (r : Int) (q bl : Nat) (P : List Nat) :
    rd8 (mkHeader p m s pa u st r q bl ++ P) 0 = p % 256 := by
  simp [mkHeader, rd8]

/-- Byte 18 of a serialized header is the state byte. -/
theorem rd8_mkHeader_append_18 (p m : Nat) (s pa : List Nat) (u st : Nat)
    (r : Int) (q bl : Nat) (P : List Nat) :
    rd8 (mkHeader p m s pa u st r q bl ++ P) 18 = st % 256 := by
  simp [mkHeader, mac6, le32, le16, rd8]

/-- Bytes 24-25 of a serialized header are the bitmask length, little
endian. -/
theorem rd16_mkHeader_append_24 (p m : Nat) (s pa : List Nat) (u st : Nat)
    (r : Int) (q bl : Nat) (P : List Nat) :
    rd16 (mkHeader p m s pa u st r q bl ++ P) 24 =
      bl % 256 + 256 * (bl / 256 % 256) := by
  simp [mkHeader, mac6, le32, le16, rd16, rd8]

/-- Bytes 2-7 of a serialized header are the sender address. -/
theorem mkHeader_append_drop2_take6 (p m : Nat) (s pa : List Nat) (u st : Nat)
    (r : Int) (q bl : Nat) (P : List Nat) :
    ((mkHeader p m s pa u st r q bl ++ P).drop 2).take 6 = mac6 s := by
  simp [mkHeader, mac6, le32, le16]

/-- Bytes 8-13 of a serialized header are the partner address. -/
theorem mkHeader_append_drop8_take6 (p m : Nat) (s pa : List Nat) (u st : Nat)
    (r : Int) (q bl : Nat) (P : List Nat) :
    ((mkHeader p m s pa u st r q bl ++ P).drop 8).take 6 = mac6 pa := by
  simp [mkHeader, mac6, le32, le16]

/-- Dropping the header of a packet leaves the payload. -/
theorem mkHeader_append_drop26 (p m : Nat) (s pa : List Nat) (u st : Nat)
    (r : Int) (q bl : Nat) (P : List Nat) :
    (mkHeader p m s pa u st r q bl ++ P).drop 26 = P := by
  have h := List.drop_left (mkHeader p m s pa u st r q bl) P
  rwa [mkHeader_length] at h

/-- The state byte fits in one byte. -/
theorem stateByte_lt (s : BROADCAST_STATE) : stateByte s < 256 := by
  cases s <;> simp [stateByte]

/-- Reading a C string out of a buffer that holds the string followed by
its NUL recovers the string. -/
theorem takeWhile_clean_append (p : Nat → Bool) (k rest : List Nat)
    (h : ∀ b ∈ k, p b = true) (h0 : p 0 = false) :
    (k ++ 0 :: rest).takeWhile p = k := by
  induction k with
  | nil => simp [List.takeWhile_cons, h0]
  | cons x xs ih =>
    rw [List.cons_append, List.takeWhile_cons, h x (List.mem_cons_self x xs)]
    simp [ih (fun b hb => h b (List.mem_cons_of_mem x hb))]

/-- Claim C7: for every context with consistent bitmask fields and every
optional NUL-free trailing string within the size bounds, the buffer
produced by build_packet_with_bitmask decodes back to the original packet:
parse_incoming_packet succeeds, the bitmask view equals the context's
bitmask with its exact length, the trailing-string view (read as a C
string) equals the supplied string or is absent when none was supplied, and
the header fields (protocol magic, message type, sender address, partner
address, state byte, bitmask length) decode to the encoded values. -/
theorem claim_C7 (c : pairing_ctx_t) (key : Option (List Nat))
    (buf_size mt now : Nat)
    (hready : pairing_is_ready c = true)
    (hbm : c.bitmask.length = c.bitmask_len)
    (hbl : c.bitmask_len ≤ PAIRING_BITMASK_MAX_LEN)
    (hkey : ∀ k, key = some k → ∀ b ∈ k, b ≠ 0)
    (hmt : mt < 256)
    (hfit : HEADER_SIZE + c.bitmask_len + pubkeyWireLen key ≤ buf_size) :
    ∃ pkt, build_packet_with_bitmask c buf_size mt key now = some pkt ∧
      ∃ p, parse_incoming_packet pkt = some p ∧
        p.bitmask_len = c.bitmask_len ∧
        p.bitmask.getD [] = c.bitmask ∧
        (key = none → p.pubkey = none) ∧
        (∀ k, key = some k → ∃ v, p.pubkey = some v ∧
          v.takeWhile (fun b => b ≠ 0) = k) ∧
        rd8 pkt 0 = PAIRING_PROTOCOL_ID ∧
        rd8 pkt 1 = mt ∧
        (pkt.drop 2).take 6 = mac6 c.my_mac ∧
        (pkt.drop 8).take 6 = mac6 c.partner_mac ∧
        rd8 pkt 18 = stateByte c.current_state ∧
        rd16 pkt 24 = c.bitmask_len := by
  have hb := build_packet_eq c key buf_size mt now hbm hkey hfit
  set tailK : List Nat := pubkeyTail key with htail
  set hdr := mkHeader PAIRING_PROTOCOL_ID mt c.my_mac c.partner_mac (u32 now)
    (stateByte c.current_state) c.partner_rssi 0 c.bitmask_len with hhdr
  have h26 : HEADER_SIZE = 26 := rfl
  have h256 : PAIRING_BITMASK_MAX_LEN = 256 := rfl
  refine ⟨hdr ++ (c.bitmask ++ tailK), hb, ?_⟩
  have hr16 : rd16 (hdr ++ (c.bitmask ++ tailK)) 24 = c.bitmask_len := by
    rw [hhdr, rd16_mkHeader_append_24]
    omega
  have hdrop26 : (hdr ++ (c.bitmask ++ tailK)).drop 26 = c.bitmask ++ tailK := by
    rw [hhdr]
    exact mkHeader_append_drop26 _ _ _ _ _ _ _ _ _ _
  have hplen : (hdr ++ (c.bitmask ++ tailK)).length =
      26 + c.bitmask_len + tailK.length := by
    rw [hhdr]
    have hl := mkHeader_length PAIRING_PROTOCOL_ID mt c.my_mac c.partner_mac
      (u32 now) (stateByte c.current_state) c.partner_rssi 0 c.bitmask_len
    simp [hl, h26, hbm]
    omega
  have hfields : rd8 (hdr ++ (c.bitmask ++ tailK)) 0 = PAIRING_PROTOCOL_ID ∧
      rd8 (hdr ++ (c.bitmask ++ tailK)) 1 = mt ∧
      ((hdr ++ (c.bitmask ++ tailK)).drop 2).take 6 = mac6 c.my_mac ∧
      ((hdr ++ (c.bitmask ++ tailK)).drop 8).take 6 = mac6 c.partner_mac ∧
      rd8 (hdr ++ (c.bitmask ++ tailK)) 18 = stateByte c.current_state := by
    rw [hhdr]
    refine ⟨?_, ?_, ?_, ?_, ?_⟩
    · rw [rd8_mkHeader_append_0]
      decide
    · rw [rd8_mkHeader_append_1]
      exact Nat.mod_eq_of_lt hmt
    · exact mkHeader_append_drop2_take6 _ _ _ _ _ _ _ _ _ _
    · exact mkHeader_append_drop8_take6 _ _ _ _ _ _ _ _ _ _
    · rw [rd8_mkHeader_append_18]
      exact Nat.mod_eq_of_lt (stateByte_lt _)
  unfold parse_incoming_packet
  rw [if_neg (by omega), hr16, if_neg (by omega), if_neg (by omega)]
  refine ⟨_, rfl, ?_, ?_, ?_, ?_, hfields.1, hfields.2.1, hfields.2.2.1,
    hfields.2.2.2.1, hfields.2.2.2.2, rfl⟩
  · dsimp only
    split
    · rfl
    · omega
  · dsimp only
    split
    · rw [h26, hdrop26, ← hbm, List.take_left]
      rfl
    · rename_i hz
      have hz0 : c.bitmask = [] := by
        rw [← List.length_eq_zero]
        omega
      simp [hz0]
  · intro hk
    subst hk
    have htl : tailK = [] := by rw [htail]; rfl
    have htl0 : tailK.length = 0 := by rw [htl]; rfl
    dsimp only
    rw [if_neg (by omega)]
  · intro k hk
    subst hk
    have htl : tailK = k ++ [0] := by rw [htail]; rfl
    have htll : tailK.length = k.length + 1 := by rw [htl]; simp
    dsimp only
    rw [if_pos (by omega)]
    refine ⟨_, rfl, ?_⟩
    have hlen26 : HEADER_SIZE + c.bitmask_len = hdr.length + c.bitmask_len := by
      rw [hhdr, mkHeader_length]
    have hdropbl : (hdr ++ (c.bitmask ++ tailK)).drop
        (HEADER_SIZE + c.bitmask_len) = tailK := by
      rw [hlen26, List.drop_append, ← hbm, List.drop_left]
    rw [hdropbl, htl]
    exact takeWhile_clean_append _ k [] (by
      intro b hb
      simpa using hkey k rfl b hb) (by simp)

/-- Witness for claim C7 on a concrete context and key. -/
theorem claim_C7_witness :
    ∃ pkt, build_packet_with_bitmask cexPaired 794 2 (some [66]) 0 = some pkt ∧
      ∃ p, parse_incoming_packet pkt = some p ∧
        p.bitmask_len = cexPaired.bitmask_len ∧
        p.bitmask.getD [] = cexPaired.bitmask ∧
        ((some [66] : Option (List Nat)) = none → p.pubkey = none) ∧
        (∀ k, (some [66] : Option (List Nat)) = some k →
          ∃ v, p.pubkey = some v ∧ v.takeWhile (fun b => b ≠ 0) = k) ∧
        rd8 pkt 0 = PAIRING_PROTOCOL_ID ∧
        rd8 pkt 1 = 2 ∧
        (pkt.drop 2).take 6 = mac6 cexPaired.my_mac ∧
        (pkt.drop 8).take 6 = mac6 cexPaired.partner_mac ∧
        rd8 pkt 18 = stateByte cexPaired.current_state ∧
        rd16 pkt 24 = cexPaired.bitmask_len :=
  claim_C7 cexPaired (some [66]) 794 2 0 (by decide) (by decide) (by decide)
    (by
      intro k hk
      injection hk with h
      subst h
      decide)
    (by decide) (by decide)

end Wayside
